import Mathlib

/-!
Verification of the pyMPB photonic-crystal simulation front end
(`phc_simulations.py`): job-name formatting, reciprocal-space path
construction, the projected-bands orchestration loop of the waveguide
builders, run-code (control-script) emission, and run-mode handling.

The Python source is shallowly embedded: numeric parameters are exact
rationals, the filesystem is abstracted as an oracle
`markerExists : String -> Bool`, and the outcome of an external solver
run is an oracle `simOk : Rat -> Bool`.  Helper modules of the
repository that are not part of `phc_simulations.py` (kspace.py,
geometry.py, utility.py, defaults.py, simulation.py) are modelled from
the specification where needed; each such definition carries a doc
comment starting with `Modelled from the spec:`.
-/

/-! ## Python primitives: paths, string formatting, rounding -/

/-- Model of `os.path.join(a, b)` for a relative second component. -/
def pathJoin (a b : String) : String := a ++ "/" ++ b

/-- Floor of a rational, computed on the integer numerator/denominator
(`q.den` is always positive). -/
def ratFloor (q : ℚ) : ℤ := Int.fdiv q.num (q.den : ℤ)

/-- Round-half-to-even rounding of a rational to an integer, as used by
Python float formatting (`format(x, '.0f')`).  `r2` is twice the
fractional remainder scaled by the denominator, so comparing it with
the denominator compares the fractional part with 1/2. -/
def pyRoundHalfEven (q : ℚ) : ℤ :=
  let f := ratFloor q
  let r2 := 2 * (q.num - f * (q.den : ℤ))
  if r2 < (q.den : ℤ) then f
  else if (q.den : ℤ) < r2 then f + 1
  else if f % 2 = 0 then f else f + 1

/-- Zero-pad the decimal rendering of `n` to a minimum width `w`. -/
def zeroPad (w : ℕ) (n : ℕ) : String :=
  String.mk (List.replicate (w - (toString n).length) '0') ++ toString n

/-- Model of Python `'{:0<w>.0f}'.format(x)`: round to an integer
(half to even) and zero-pad to minimum width `w` (sign included in the
width, as in Python). -/
def pyFormat0f (w : ℕ) (q : ℚ) : String :=
  let n := pyRoundHalfEven q
  if n < 0 then "-" ++ zeroPad (w - 1) n.natAbs else zeroPad w n.toNat

/-- Model of Python `s.startswith(p)`. -/
def pyStartsWith (s p : String) : Bool := List.isPrefixOf p.data s.data

/-- `strContains s pat`: `pat` occurs as a contiguous substring of `s`. -/
def strContains (s pat : String) : Prop := ∃ t u, s = t ++ (pat ++ u)

theorem strContains_here (pat u : String) : strContains (pat ++ u) pat :=
  ⟨"", u, by simp⟩

theorem strContains_append_left (a : String) {s : String} {pat : String}
    (h : strContains s pat) : strContains (a ++ s) pat := by
  obtain ⟨t, u, rfl⟩ := h
  exact ⟨a ++ t, u, by rw [String.append_assoc]⟩

theorem strContains_append_right {s : String} (b : String) {pat : String}
    (h : strContains s pat) : strContains (s ++ b) pat := by
  obtain ⟨t, u, rfl⟩ := h
  exact ⟨t, u ++ b, by rw [String.append_assoc, String.append_assoc]⟩

/-! ## K-space model

The `KSpace` class lives in `kspace.py`, which is not part of the two
source files under analysis; only its call sites are.  It is therefore
modelled from the spec (section 4.3). -/

/-- A reciprocal-space point (three reciprocal-lattice coordinates). -/
abbrev Vec3 : Type := ℚ × ℚ × ℚ

/-- Linear interpolation between two reciprocal-space points. -/
def lerp (a b : Vec3) (t : ℚ) : Vec3 :=
  (a.1 + t * (b.1 - a.1), a.2.1 + t * (b.2.1 - a.2.1), a.2.2 + t * (b.2.2 - a.2.2))

/-- Modelled from the spec: the `n` evenly spaced interior points
bridging two consecutive k-path vertices `a` and `b` (vertices
excluded), spec section 4.3. -/
def seg (n : ℕ) (a b : Vec3) : List Vec3 :=
  (List.range n).map (fun (i : ℕ) => lerp a b (((i : ℚ) + 1) / ((n : ℚ) + 1)))

/-- Modelled from the spec: the tail of the interpolated k-path after
an initial vertex `a`: each further vertex is preceded by the interior
points of its segment, and shared vertices are not duplicated. -/
def kspaceTail (n : ℕ) (a : Vec3) : List Vec3 → List Vec3
  | [] => []
  | b :: rest => seg n a b ++ b :: kspaceTail n b rest

/-- Modelled from the spec: `KSpace.points()` (kspace.py, not under
src/) — the full interpolated point sequence for an explicit vertex
list with `k_interpolation = n`; an empty vertex list yields an empty
sequence. -/
def kspaceInterpolate (n : ℕ) : List Vec3 → List Vec3
  | [] => []
  | p :: rest => p :: kspaceTail n p rest

/-- Modelled from the spec: the `KSpace` object — an explicit points
list plus an interpolation count (kspace.py, not under src/). -/
structure KSpaceM where
  points_list : List Vec3
  k_interpolation : ℕ

/-- Modelled from the spec: `KSpace.points()`. -/
def KSpaceM.points (k : KSpaceM) : List Vec3 :=
  kspaceInterpolate k.k_interpolation k.points_list

/-- Modelled from the spec: `KSpaceTriangular` (kspace.py, not under
src/) — the canonical triangular-lattice path
Gamma(0,0,0), M(1/2,0,0), K(1/3,1/3,0), Gamma(0,0,0). -/
def kspaceTriangularM (n : ℕ) : KSpaceM :=
  { points_list := [(0, 0, 0), (1/2, 0, 0), (1/3, 1/3, 0), (0, 0, 0)],
    k_interpolation := n }

theorem seg_length (n : ℕ) (a b : Vec3) : (seg n a b).length = n := by
  rw [seg, List.length_map, List.length_range]

theorem kspaceTail_length (n : ℕ) (a : Vec3) (l : List Vec3) :
    (kspaceTail n a l).length = l.length * (n + 1) := by
  induction l generalizing a with
  | nil => simp [kspaceTail]
  | cons b rest ih =>
      simp only [kspaceTail, List.length_append, seg_length, List.length_cons, ih b]
      ring

theorem kspaceInterpolate_length (n : ℕ) (l : List Vec3) :
    (kspaceInterpolate n l).length = l.length + (l.length - 1) * n := by
  cases l with
  | nil => simp [kspaceInterpolate]
  | cons p rest =>
      simp [kspaceInterpolate, kspaceTail_length]
      ring

/-! ## Job-name formatting (`phc_simulations.py`, lines 118-119, 261-262,
368-369, 518-519, 672-673, 849-850).

The material is represented by its resolved name (`Dielectric` lives in
`objects.py`, outside the analysed sources; only the name string enters
the folder name). -/

/-- `TriHoles2D` job name: `'TriHoles2D_{0}_r{1:03.0f}'.format(mat.name, radius * 1000)`. -/
def TriHoles2D_jobname (matName : String) (radius : ℚ) : String :=
  "TriHoles2D_" ++ matName ++ "_r" ++ pyFormat0f 3 (radius * 1000)

/-- `TriHolesSlab3D` job name:
`'TriHolesSlab_{0}_r{1:03.0f}_t{2:03.0f}'.format(mat.name, radius * 1000, thickness * 1000)`. -/
def TriHolesSlab3D_jobname (matName : String) (radius thickness : ℚ) : String :=
  "TriHolesSlab_" ++ matName ++ "_r" ++ pyFormat0f 3 (radius * 1000) ++
    "_t" ++ pyFormat0f 3 (thickness * 1000)

/-- `TriHoles2D_Waveguide` job name (line 518). -/
def TriHoles2D_W1_jobname (matName : String) (radius : ℚ) : String :=
  "TriHoles2D_W1_" ++ matName ++ "_r" ++ pyFormat0f 3 (radius * 1000)

/-- `TriHolesSlab3D_Waveguide` job name (line 849). -/
def TriHolesSlab3D_W1_jobname (matName : String) (radius thickness : ℚ) : String :=
  "TriHolesSlab_W1_" ++ matName ++ "_r" ++ pyFormat0f 3 (radius * 1000) ++
    "_t" ++ pyFormat0f 3 (thickness * 1000)

/-! ## Geometry and substrate (claim C9)

`Geometry` lives in `geometry.py`, which is outside the analysed
sources; it is modelled from the spec (sections 3, 4.2).  Only the
facets used by `TriHolesSlab3D` are represented. -/

/-- A geometric primitive, as assembled by `TriHolesSlab3D`. -/
inductive GeoPrim where
  | block (material : String) (sizeZ : ℚ)
  | rod (material : String) (radius : ℚ)
  | substrateSlab (material : String) (start_at : ℚ)
deriving DecidableEq

/-- Modelled from the spec: a `Geometry` (geometry.py, not under src/)
with its primitive list and the recorded substrate index; with no
substrate the index is 1, leaving the plot-cropping value unscaled. -/
structure GeometryM where
  objects : List GeoPrim
  substrate_index : ℕ := 1
deriving DecidableEq

/-- Modelled from the spec: `Geometry.add_substrate(material, start_at)`
(geometry.py, not under src/) — appends a substrate slab primitive and
records as substrate index the length of the primitive list immediately
before the call (the index of the appended primitive). -/
def GeometryM.add_substrate (g : GeometryM) (material : String) (start_at : ℚ) : GeometryM :=
  { objects := g.objects ++ [GeoPrim.substrateSlab material start_at],
    substrate_index := g.objects.length }

/-- The geometry assembled by `TriHolesSlab3D` (lines 208-228): a slab
block and an air rod, plus an optional substrate starting at
`-0.5 * thickness`. -/
def TriHolesSlab3D_geom (matName : String) (radius thickness : ℚ)
    (substrate_material : Option String) : GeometryM :=
  let g : GeometryM := { objects := [GeoPrim.block matName thickness, GeoPrim.rod "air" radius] }
  match substrate_material with
  | some sm => g.add_substrate sm (-(1/2) * thickness)
  | none => g

/-- The plot-cropping value `TriHolesSlab3D` passes to post-processing
(line 286): `plot_crop_y = 0.8 / geom.substrate_index`. -/
def TriHolesSlab3D_plot_crop_y (g : GeometryM) : ℚ :=
  (8/10) / (g.substrate_index : ℚ)

/-! ## Run modes (claim C7)

The run-mode state machine `do_runmode` lives in `utility.py` and the
`Simulation` side effects in `simulation.py`, both outside the analysed
sources; they are modelled from the spec (sections 4.5, 6, 7).  The
clear-directory decision itself is in `phc_simulations.py`
(lines 134, 276, 575, 905). -/

/-- The decision whether the job subfolder is to be cleared, passed to
the `Simulation` constructor:
`clear_subfolder=runmode.startswith('s') or runmode.startswith('c')`. -/
def clearDecision (runmode : String) : Bool :=
  pyStartsWith runmode "s" || pyStartsWith runmode "c"

/-- The five valid run modes (spec section 4.5). -/
def validRunmodes : List String := ["", "ctl", "sim", "postpc", "display"]

/-- Observable filesystem/side effects of the run-mode state machine. -/
inductive FsEffect where
  | clearDir
  | writeCtl
  | runSolver
  | postProcess
  | showPngs
deriving DecidableEq

/-- Modelled from the spec: `do_runmode` (utility.py, not under src/).
The orchestrator's run-mode state machine: `''` has no side effects;
`'ctl'` and `'sim'` clear the output directory first (when the
constructed simulation asked for clearing) and persist the control
script, `'sim'` additionally runs the solver and post-processes;
`'postpc'` post-processes only; `'display'` shows images.  Any other
value is rejected before any filesystem mutation (`none`). -/
def do_runmode_effects (clear_subfolder : Bool) (runmode : String) :
    Option (List FsEffect) :=
  if runmode = "" then some []
  else if runmode = "ctl" then
    some ((if clear_subfolder then [FsEffect.clearDir] else []) ++ [FsEffect.writeCtl])
  else if runmode = "sim" then
    some ((if clear_subfolder then [FsEffect.clearDir] else []) ++
      [FsEffect.writeCtl, FsEffect.runSolver, FsEffect.postProcess])
  else if runmode = "postpc" then some [FsEffect.postProcess]
  else if runmode = "display" then some [FsEffect.showPngs]
  else none

/-- The effects of a `TriHoles2D` build for a given run mode: the
`Simulation` object is constructed with the prefix-matched clearing
decision (line 134) and then handed to `do_runmode` (line 140). -/
def TriHoles2D_runEffects (runmode : String) : Option (List FsEffect) :=
  do_runmode_effects (clearDecision runmode) runmode

/-- The effects of a `TriHoles2D_Waveguide` build for a given run mode
(lines 575, 582). -/
def TriHoles2D_Waveguide_runEffects (runmode : String) : Option (List FsEffect) :=
  do_runmode_effects (clearDecision runmode) runmode

/-- The k-space used by `TriHoles2D` (lines 95-98): the custom k-space
when one is given, else `KSpaceTriangular(k_interpolation=...)`. -/
def TriHoles2D_kspace (custom_k_space : Option KSpaceM) (k_interpolation : ℕ) : KSpaceM :=
  match custom_k_space with
  | some k => k
  | none => kspaceTriangularM k_interpolation

/-! ## Waveguide projected-bands orchestration (claims C1, C2, C3)

`phc_simulations.py` lines 365-451 (`TriHoles2D_Waveguide`) and
669-762 (`TriHolesSlab3D_Waveguide`).  The filesystem is abstracted by
`markerExists : String -> Bool` (does `path.isfile` hold for a path?)
and the outcome of a recursive bulk run by `simOk : Rat -> Bool`
(does the recursive builder return a truthy simulation object at this
waveguide k-value?). -/

/-- The K point of the rectangular supercell Brillouin zone in the
triangular reciprocal basis (line 395): `rectBZ_K = (0.25, -0.25)`. -/
def rectBZ_K : ℚ × ℚ := (1/4, -1/4)

/-- The M point of the triangular lattice reciprocal basis (line 402):
`triBZ_M = (0.5, 0.5)`. -/
def triBZ_M : ℚ × ℚ := (1/2, 1/2)

/-- First point of the two-point bulk k-list for waveguide k-value
`ky` (line 422): `rectBZ_K * ky * 2`, componentwise. -/
def projPointA (ky : ℚ) : ℚ × ℚ := (rectBZ_K.1 * ky * 2, rectBZ_K.2 * ky * 2)

/-- Second point of the two-point bulk k-list (line 423):
`rectBZ_K * ky * 2 + triBZ_M`, componentwise. -/
def projPointB (ky : ℚ) : ℚ × ℚ :=
  (rectBZ_K.1 * ky * 2 + triBZ_M.1, rectBZ_K.2 * ky * 2 + triBZ_M.2)

/-- The arguments of one recursive bulk-builder invocation that the
orchestration loop performs for a k-value whose marker file is
missing. -/
structure SubSimCall where
  points_list : List (ℚ × ℚ)
  k_interpolation : ℕ
  runmode : String
  modes : List String
deriving DecidableEq

/-- The recursive `TriHoles2D(...)` call of `TriHoles2D_Waveguide`
(lines 420-442): two-point k-space with `k_interpolation=15`, run mode
`'sim'` unconditionally. -/
def wgSubSimCall2D (mode : String) (ky : ℚ) : SubSimCall :=
  { points_list := [projPointA ky, projPointB ky],
    k_interpolation := 15,
    runmode := "sim",
    modes := [mode] }

/-- The recursive `TriHolesSlab3D(...)` call of
`TriHolesSlab3D_Waveguide` (lines 729-753): two-point k-space with
`k_interpolation=15`, run mode `'sim' if runmode.startswith('s') else ''`
(line 745). -/
def wgSubSimCallSlab (parent_runmode mode : String) (ky : ℚ) : SubSimCall :=
  { points_list := [projPointA ky, projPointB ky],
    k_interpolation := 15,
    runmode := if pyStartsWith parent_runmode "s" then "sim" else "",
    modes := [mode] }

/-- The jobname suffix for the unperturbed simulation at waveguide
k-value `ky` (lines 411, 720): `'_projk{0:06.0f}'.format(ky*1e6)`. -/
def projkSuffix (ky : ℚ) : String := "_projk" ++ pyFormat0f 6 (ky * 1000000)

/-- The reference folder recorded for k-value `ky` (lines 413, 722):
`path.join(repo, unperturbed_jobname + jobname_suffix)`. -/
def projFolder (repo job : String) (ky : ℚ) : String :=
  pathJoin repo (job ++ projkSuffix ky)

/-- The completion marker checked for k-value `ky` (lines 414-415,
723-724): `path.join(repo, jobname, jobname + '_' + mode + '_ranges.csv')`. -/
def rangeFileName (repo job mode : String) (ky : ℚ) : String :=
  pathJoin (pathJoin repo (job ++ projkSuffix ky))
    (job ++ projkSuffix ky ++ "_" ++ mode ++ "_ranges.csv")

/-- Outcome of the projected-bands orchestration loop: either the
complete reference-folder list together with the bulk sub-simulation
invocations that were performed, or an abort carrying the folder path
reported for the failing sub-simulation and the invocations performed
up to and including the failing one. -/
inductive WgProjResult where
  | ok (folders : List String) (invoked : List SubSimCall)
  | aborted (failingFolder : String) (invoked : List SubSimCall)
deriving DecidableEq

/-- Prepend the folder recorded for the current k-value (and the
sub-simulation invocation performed for it, if any) to the outcome of
the remaining loop iterations. -/
def wgCons (folder : String) (call? : Option SubSimCall) : WgProjResult → WgProjResult
  | WgProjResult.ok fs inv => WgProjResult.ok (folder :: fs) (call?.toList ++ inv)
  | WgProjResult.aborted f inv => WgProjResult.aborted f (call?.toList ++ inv)

/-- The projected-bands orchestration loop (lines 410-451 and
719-762): for each waveguide k-value, record the reference folder;
if the per-mode ranges marker file is missing, invoke a bulk
sub-simulation (`mkCall ky`); if that sub-simulation returns a falsy
result, abort the whole build reporting the folder path. -/
def ensureProjBands (markerExists : String → Bool) (simOk : ℚ → Bool)
    (mkCall : ℚ → SubSimCall) (repo job mode : String) : List ℚ → WgProjResult
  | [] => WgProjResult.ok [] []
  | ky :: rest =>
      if markerExists (rangeFileName repo job mode ky) then
        wgCons (projFolder repo job ky) none
          (ensureProjBands markerExists simOk mkCall repo job mode rest)
      else if simOk ky then
        wgCons (projFolder repo job ky) (some (mkCall ky))
          (ensureProjBands markerExists simOk mkCall repo job mode rest)
      else
        WgProjResult.aborted (projFolder repo job ky) [mkCall ky]

/-- `np.linspace(0, 0.5, num=n, endpoint=True)` (lines 382, 689): `n`
evenly spaced samples from 0 to 1/2 inclusive. -/
def linspace05 (n : ℕ) : List ℚ :=
  (List.range n).map (fun (i : ℕ) => if n ≤ 1 then 0 else (i : ℚ) / (2 * ((n : ℚ) - 1)))

/-- The `k_steps` argument of `TriHolesSlab3D_Waveguide`: either a
count (then `np.linspace(0, 0.5, num=k_steps)` is sampled) or an
explicit list of scalar k-values (lines 687-691). -/
inductive KSteps where
  | count (n : ℕ)
  | explicitList (ks : List ℚ)

/-- The sampled waveguide k-values for a `k_steps` argument. -/
def kStepsPoints : KSteps → List ℚ
  | KSteps.count n => linspace05 n
  | KSteps.explicitList ks => ks

/-- The repo folder holding the unperturbed simulations (lines
371-377, 675-681): `path.join(projected_bands_folder, unperturbed_jobname)`
(absolute-path normalisation is elided). -/
def wgRepo (projected_bands_folder unperturbed_jobname : String) : String :=
  pathJoin projected_bands_folder unperturbed_jobname

/-- The projected-bands phase of `TriHoles2D_Waveguide` (lines
365-451), with its unperturbed job name and sampled k-values filled
in. -/
def triHoles2D_Wg_projBands (markerExists : String → Bool) (simOk : ℚ → Bool)
    (projected_bands_folder matName : String) (radius : ℚ)
    (mode : String) (k_steps : ℕ) : WgProjResult :=
  ensureProjBands markerExists simOk (wgSubSimCall2D mode)
    (wgRepo projected_bands_folder (TriHoles2D_jobname matName radius))
    (TriHoles2D_jobname matName radius) mode (linspace05 k_steps)

/-- The projected-bands phase of `TriHolesSlab3D_Waveguide` (lines
669-762).  The parent run mode enters the recursive call (line 745). -/
def triHolesSlab3D_Wg_projBands (markerExists : String → Bool) (simOk : ℚ → Bool)
    (projected_bands_folder matName : String) (radius thickness : ℚ)
    (mode runmode : String) (k_steps : KSteps) : WgProjResult :=
  ensureProjBands markerExists simOk (wgSubSimCallSlab runmode mode)
    (wgRepo projected_bands_folder (TriHolesSlab3D_jobname matName radius thickness))
    (TriHolesSlab3D_jobname matName radius thickness) mode (kStepsPoints k_steps)

/-! ## Run-code (control-script) emission (claims C8, C10)

`phc_simulations.py` lines 521-562 (`TriHoles2D_Waveguide`) and
852-893 (`TriHolesSlab3D_Waveguide`).  The `defaults` module is not
part of the analysed sources; its flag, output-function lists and band
function are abstracted as explicit parameters. -/

/-- Modelled from the spec: the ambient `defaults` module
(defaults.py, not under src/) — the new-solver flag `newmpb`, the
per-mode output-function lists `output_funcs_te`/`output_funcs_tm`,
and `default_band_func(points_of_interest, outputfunc_name)` which
renders the band-function argument of a run directive. -/
structure DefaultsM where
  newmpb : Bool
  output_funcs_te : List String
  output_funcs_tm : List String
  band_func : List Vec3 → Option String → String

/-- The literal recursive Scheme list-membership routine emitted at
lines 532-541 / 863-872. -/
def memberRoutineCode : String :=
  ";function to determine whether an item x is member of list:\n(define (member? x list)\n    (cond (\n        ;false if the list is empty:\n        (null? list) #f )\n        ;true if first item (car) equals x:\n        ( (eqv? x (car list)) #t )\n        ;else, drop first item (cdr) and make recursive call:\n        ( else (member? x (cdr list)) )\n    ))\n\n"

/-- The output-bands-list directive (lines 542-543 / 873-874):
`'(define output-bands-list (list {0}))\n\n'` with the band numbers
space-joined. -/
def outputBandsListCode (bandnums : List ℤ) : String :=
  "(define output-bands-list (list " ++
    String.intercalate " " (bandnums.map toString) ++ "))\n\n"

/-- One gated invocation line per requested output function
(lines 547-548 / 878-879): 12 spaces, then `({func} bnum)`. -/
def outputFuncLine (func : String) : String :=
  "            (" ++ func ++ " bnum)\n"

/-- Model of Python `''.join(f(x) for x in l)`. -/
def strConcatMap {α : Type} (f : α → String) : List α → String
  | [] => ""
  | a :: rest => f a ++ strConcatMap f rest

/-- The output-func gate routine (lines 544-550 / 875-881). -/
def outputFuncCode (outputfuncs : List String) : String :=
  "(define (output-func bnum)\n    (if (member? bnum output-bands-list)\n        (begin\n" ++
    strConcatMap outputFuncLine outputfuncs ++
    "        )\n    ))\n\n"

/-- The field-pattern-gated run block (lines 531-556 / 862-887). -/
def gatedRuncode (d : DefaultsM) (mode : String) (outputfuncs : List String)
    (bandnums : List ℤ) (kvecs : List Vec3) : String :=
  memberRoutineCode ++ outputBandsListCode bandnums ++ outputFuncCode outputfuncs ++
    ("(run-" ++ mode ++ " " ++ d.band_func kvecs (some "output-func") ++ ")\n") ++
    "(print-dos 0 1.2 121)\n\n"

/-- The plain run block emitted when gating is off (lines 558-562 /
889-893): a single run directive with an empty points-of-interest list
and no output function, followed by the DOS directive. -/
def plainRuncode (d : DefaultsM) (mode : String) : String :=
  ("(run-" ++ mode ++ " " ++ d.band_func [] none ++ ")\n") ++
    "(print-dos 0 1.2 121)\n\n"

/-- The run-code preamble (lines 526-528 / 857-859): empty, or
`'(optimize-grid-size!)\n\n'` for a new solver. -/
def wgPreamble (d : DefaultsM) : String :=
  if d.newmpb then "(optimize-grid-size!)\n\n" else ""

/-- Output functions selected by `TriHoles2D_Waveguide` (lines
521-524): TE functions for mode `'te'`, else TM functions. -/
def wgOutputFuncs2D (d : DefaultsM) (mode : String) : List String :=
  if mode = "te" then d.output_funcs_te else d.output_funcs_tm

/-- Output functions selected by `TriHolesSlab3D_Waveguide` (lines
852-855): TE functions for mode `'zeven'`, else TM functions. -/
def wgOutputFuncsSlab (d : DefaultsM) (mode : String) : List String :=
  if mode = "zeven" then d.output_funcs_te else d.output_funcs_tm

/-- The run code emitted by `TriHoles2D_Waveguide` (lines 526-562):
the gated block is emitted exactly when both
`save_field_patterns_bandnums` and `save_field_patterns_kvecs` are
non-empty (Python truthiness of the two lists, line 530). -/
def TriHoles2D_Waveguide_runcode (d : DefaultsM) (mode : String)
    (save_field_patterns_bandnums : List ℤ)
    (save_field_patterns_kvecs : List Vec3) : String :=
  wgPreamble d ++
    (if !save_field_patterns_bandnums.isEmpty && !save_field_patterns_kvecs.isEmpty then
      gatedRuncode d mode (wgOutputFuncs2D d mode)
        save_field_patterns_bandnums save_field_patterns_kvecs
    else
      plainRuncode d mode)

/-- The run code emitted by `TriHolesSlab3D_Waveguide`
(lines 857-893). -/
def TriHolesSlab3D_Waveguide_runcode (d : DefaultsM) (mode : String)
    (save_field_patterns_bandnums : List ℤ)
    (save_field_patterns_kvecs : List Vec3) : String :=
  wgPreamble d ++
    (if !save_field_patterns_bandnums.isEmpty && !save_field_patterns_kvecs.isEmpty then
      gatedRuncode d mode (wgOutputFuncsSlab d mode)
        save_field_patterns_bandnums save_field_patterns_kvecs
    else
      plainRuncode d mode)

/-! ## Full waveguide builder outcome (claims C1, C2) -/

/-- The observable pieces of the waveguide `Simulation` the builders
construct once all projected-bands references are ensured. -/
structure WaveguideSim where
  jobname : String
  runcode : String
  clear_subfolder : Bool
  project_bands_list : List String
deriving DecidableEq

/-- `TriHoles2D_Waveguide` (lines 294-589), up to the `do_runmode`
hand-off: `none` models the bare `return` (Python `None`) taken when a
bulk sub-simulation fails (lines 444-451); otherwise the waveguide
simulation is built and the accumulated reference-folder list is
forwarded to post-processing (line 588). -/
def TriHoles2D_Waveguide_model (markerExists : String → Bool) (simOk : ℚ → Bool)
    (d : DefaultsM) (matName : String) (radius : ℚ) (mode : String)
    (k_steps : ℕ) (runmode projected_bands_folder job_name_suffix : String)
    (save_field_patterns_bandnums : List ℤ)
    (save_field_patterns_kvecs : List Vec3) : Option WaveguideSim :=
  match triHoles2D_Wg_projBands markerExists simOk projected_bands_folder
      matName radius mode k_steps with
  | WgProjResult.aborted _ _ => none
  | WgProjResult.ok folders _ =>
      some { jobname := TriHoles2D_W1_jobname matName radius ++ job_name_suffix,
             runcode := TriHoles2D_Waveguide_runcode d mode
               save_field_patterns_bandnums save_field_patterns_kvecs,
             clear_subfolder := clearDecision runmode,
             project_bands_list := folders }

/-- `TriHolesSlab3D_Waveguide` (lines 592-921), up to the `do_runmode`
hand-off. -/
def TriHolesSlab3D_Waveguide_model (markerExists : String → Bool) (simOk : ℚ → Bool)
    (d : DefaultsM) (matName : String) (radius thickness : ℚ) (mode : String)
    (k_steps : KSteps) (runmode projected_bands_folder job_name_suffix : String)
    (save_field_patterns_bandnums : List ℤ)
    (save_field_patterns_kvecs : List Vec3) : Option WaveguideSim :=
  match triHolesSlab3D_Wg_projBands markerExists simOk projected_bands_folder
      matName radius thickness mode runmode k_steps with
  | WgProjResult.aborted _ _ => none
  | WgProjResult.ok folders _ =>
      some { jobname := TriHolesSlab3D_W1_jobname matName radius thickness ++ job_name_suffix,
             runcode := TriHolesSlab3D_Waveguide_runcode d mode
               save_field_patterns_bandnums save_field_patterns_kvecs,
             clear_subfolder := clearDecision runmode,
             project_bands_list := folders }

/-! ## Lemmas about the orchestration loop -/

theorem ensureProjBands_all_markers (markerExists : String → Bool) (simOk : ℚ → Bool)
    (mkCall : ℚ → SubSimCall) (repo job mode : String) (kpts : List ℚ)
    (h : ∀ ky ∈ kpts, markerExists (rangeFileName repo job mode ky) = true) :
    ensureProjBands markerExists simOk mkCall repo job mode kpts =
      WgProjResult.ok (kpts.map (projFolder repo job)) [] := by
  induction kpts with
  | nil => rfl
  | cons ky rest ih =>
      have hky : markerExists (rangeFileName repo job mode ky) = true :=
        h ky (List.mem_cons_self ky rest)
      have hrest : ∀ k ∈ rest, markerExists (rangeFileName repo job mode k) = true :=
        fun k hk => h k (List.mem_cons_of_mem ky hk)
      simp [ensureProjBands, hky, ih hrest, wgCons]

theorem ensureProjBands_no_markers_all_ok (simOk : ℚ → Bool)
    (mkCall : ℚ → SubSimCall) (repo job mode : String) (kpts : List ℚ)
    (h : ∀ ky ∈ kpts, simOk ky = true) :
    ensureProjBands (fun _ => false) simOk mkCall repo job mode kpts =
      WgProjResult.ok (kpts.map (projFolder repo job)) (kpts.map mkCall) := by
  induction kpts with
  | nil => rfl
  | cons ky rest ih =>
      have hky : simOk ky = true := h ky (List.mem_cons_self ky rest)
      have hrest : ∀ k ∈ rest, simOk k = true :=
        fun k hk => h k (List.mem_cons_of_mem ky hk)
      simp [ensureProjBands, hky, ih hrest, wgCons]

theorem ensureProjBands_no_markers_abort (simOk : ℚ → Bool)
    (mkCall : ℚ → SubSimCall) (repo job mode : String)
    (pre post : List ℚ) (ky₀ : ℚ)
    (hpre : ∀ ky ∈ pre, simOk ky = true) (hfail : simOk ky₀ = false) :
    ensureProjBands (fun _ => false) simOk mkCall repo job mode (pre ++ ky₀ :: post) =
      WgProjResult.aborted (projFolder repo job ky₀)
        (pre.map mkCall ++ [mkCall ky₀]) := by
  induction pre with
  | nil => simp [ensureProjBands, hfail]
  | cons ky rest ih =>
      have hky : simOk ky = true := hpre ky (List.mem_cons_self ky rest)
      have hrest : ∀ k ∈ rest, simOk k = true :=
        fun k hk => hpre k (List.mem_cons_of_mem ky hk)
      simp [ensureProjBands, hky, ih hrest, wgCons]

/-! ## Claim theorems -/

/-- A concrete defaults instance used by witnesses. -/
def sampleDefaults : DefaultsM :=
  { newmpb := true,
    output_funcs_te := ["fix-hfield-phase", "output-hfieldz"],
    output_funcs_tm := ["fix-efield-phase", "output-efieldz"],
    band_func := fun _ f => "(band-hook " ++ f.getD "none" ++ ")" }

/-- C1: for both waveguide builders, if for every sampled k-value the
marker file `<unperturbed_jobname>_projk<ky*1e6, zero-padded to 6
digits>/<same jobname>_<mode>_ranges.csv` exists under the
projected-bands repo folder, the orchestrator performs zero bulk
sub-simulation invocations and the builder still hands post-processing
a reference-folder list with exactly one folder per sampled k-value,
in k-value order. -/
theorem claim1_memoized_skip
    (markerExists : String → Bool) (simOk : ℚ → Bool) (d : DefaultsM)
    (pbf matName : String) (radius thickness : ℚ)
    (mode runmode suffix : String) (n : ℕ) (ks : KSteps)
    (bn : List ℤ) (kv : List Vec3)
    (h2d : ∀ ky ∈ linspace05 n,
      markerExists (rangeFileName (wgRepo pbf (TriHoles2D_jobname matName radius))
        (TriHoles2D_jobname matName radius) mode ky) = true)
    (hslab : ∀ ky ∈ kStepsPoints ks,
      markerExists (rangeFileName (wgRepo pbf (TriHolesSlab3D_jobname matName radius thickness))
        (TriHolesSlab3D_jobname matName radius thickness) mode ky) = true) :
    triHoles2D_Wg_projBands markerExists simOk pbf matName radius mode n =
      WgProjResult.ok ((linspace05 n).map
        (projFolder (wgRepo pbf (TriHoles2D_jobname matName radius))
          (TriHoles2D_jobname matName radius))) [] ∧
    triHolesSlab3D_Wg_projBands markerExists simOk pbf matName radius thickness mode runmode ks =
      WgProjResult.ok ((kStepsPoints ks).map
        (projFolder (wgRepo pbf (TriHolesSlab3D_jobname matName radius thickness))
          (TriHolesSlab3D_jobname matName radius thickness))) [] ∧
    (TriHoles2D_Waveguide_model markerExists simOk d matName radius mode n
        runmode pbf suffix bn kv).map WaveguideSim.project_bands_list =
      some ((linspace05 n).map
        (projFolder (wgRepo pbf (TriHoles2D_jobname matName radius))
          (TriHoles2D_jobname matName radius))) ∧
    (TriHolesSlab3D_Waveguide_model markerExists simOk d matName radius thickness mode ks
        runmode pbf suffix bn kv).map WaveguideSim.project_bands_list =
      some ((kStepsPoints ks).map
        (projFolder (wgRepo pbf (TriHolesSlab3D_jobname matName radius thickness))
          (TriHolesSlab3D_jobname matName radius thickness))) := by
  have e2d := ensureProjBands_all_markers markerExists simOk (wgSubSimCall2D mode)
    (wgRepo pbf (TriHoles2D_jobname matName radius))
    (TriHoles2D_jobname matName radius) mode (linspace05 n) h2d
  have eslab := ensureProjBands_all_markers markerExists simOk
    (wgSubSimCallSlab runmode mode)
    (wgRepo pbf (TriHolesSlab3D_jobname matName radius thickness))
    (TriHolesSlab3D_jobname matName radius thickness) mode (kStepsPoints ks) hslab
  refine ⟨e2d, eslab, ?_, ?_⟩
  · simp [TriHoles2D_Waveguide_model, triHoles2D_Wg_projBands, e2d]
  · simp [TriHolesSlab3D_Waveguide_model, triHolesSlab3D_Wg_projBands, eslab]

/-- Witness for C1 at a fully concrete input: a marker oracle that has
every file present, one sampled k-value. -/
theorem claim1_memoized_skip_witness :
    (∀ ky ∈ linspace05 1,
      (fun (_ : String) => true) (rangeFileName (wgRepo "repo" (TriHoles2D_jobname "SiN" 1))
        (TriHoles2D_jobname "SiN" 1) "te" ky) = true) ∧
    triHoles2D_Wg_projBands (fun _ => true) (fun _ => false) "repo" "SiN" 1 "te" 1 =
      WgProjResult.ok ((linspace05 1).map
        (projFolder (wgRepo "repo" (TriHoles2D_jobname "SiN" 1))
          (TriHoles2D_jobname "SiN" 1))) [] := by
  have h := claim1_memoized_skip (fun _ => true) (fun _ => false) sampleDefaults
    "repo" "SiN" 1 1 "te" "sim" "" 1 (KSteps.count 1) [] []
    (fun _ _ => rfl) (fun _ _ => rfl)
  exact ⟨fun _ _ => rfl, h.1⟩

/-- C2: with an empty projected-bands folder (no marker file exists),
both waveguide builders invoke exactly one bulk sub-simulation per
sampled k-value, in k-value order (`simOkA` scenario); and on the first
sub-simulation failure the loop aborts immediately — the invocations
stop at the failing k-value — the failing folder path is reported, and
the builder returns the falsy `None` sentinel instead of a simulation
object (`simOkB` scenario). -/
theorem claim2_empty_repo_per_k_and_abort
    (simOkA simOkB : ℚ → Bool) (d : DefaultsM)
    (pbf matName : String) (radius thickness : ℚ)
    (mode runmode suffix : String) (n m : ℕ)
    (pre post : List ℚ) (ky₀ : ℚ) (bn : List ℤ) (kv : List Vec3)
    (hA : ∀ ky ∈ linspace05 n, simOkA ky = true)
    (hsplit : linspace05 m = pre ++ ky₀ :: post)
    (hpre : ∀ ky ∈ pre, simOkB ky = true)
    (hfail : simOkB ky₀ = false) :
    triHoles2D_Wg_projBands (fun _ => false) simOkA pbf matName radius mode n =
      WgProjResult.ok ((linspace05 n).map
          (projFolder (wgRepo pbf (TriHoles2D_jobname matName radius))
            (TriHoles2D_jobname matName radius)))
        ((linspace05 n).map (wgSubSimCall2D mode)) ∧
    triHolesSlab3D_Wg_projBands (fun _ => false) simOkA pbf matName radius thickness
        mode runmode (KSteps.count n) =
      WgProjResult.ok ((linspace05 n).map
          (projFolder (wgRepo pbf (TriHolesSlab3D_jobname matName radius thickness))
            (TriHolesSlab3D_jobname matName radius thickness)))
        ((linspace05 n).map (wgSubSimCallSlab runmode mode)) ∧
    triHoles2D_Wg_projBands (fun _ => false) simOkB pbf matName radius mode m =
      WgProjResult.aborted
        (projFolder (wgRepo pbf (TriHoles2D_jobname matName radius))
          (TriHoles2D_jobname matName radius) ky₀)
        (pre.map (wgSubSimCall2D mode) ++ [wgSubSimCall2D mode ky₀]) ∧
    triHolesSlab3D_Wg_projBands (fun _ => false) simOkB pbf matName radius thickness
        mode runmode (KSteps.count m) =
      WgProjResult.aborted
        (projFolder (wgRepo pbf (TriHolesSlab3D_jobname matName radius thickness))
          (TriHolesSlab3D_jobname matName radius thickness) ky₀)
        (pre.map (wgSubSimCallSlab runmode mode) ++ [wgSubSimCallSlab runmode mode ky₀]) ∧
    TriHoles2D_Waveguide_model (fun _ => false) simOkB d matName radius mode m
        runmode pbf suffix bn kv = none ∧
    TriHolesSlab3D_Waveguide_model (fun _ => false) simOkB d matName radius thickness mode
        (KSteps.count m) runmode pbf suffix bn kv = none := by
  have a2d := ensureProjBands_no_markers_all_ok simOkA (wgSubSimCall2D mode)
    (wgRepo pbf (TriHoles2D_jobname matName radius))
    (TriHoles2D_jobname matName radius) mode (linspace05 n) hA
  have aslab := ensureProjBands_no_markers_all_ok simOkA (wgSubSimCallSlab runmode mode)
    (wgRepo pbf (TriHolesSlab3D_jobname matName radius thickness))
    (TriHolesSlab3D_jobname matName radius thickness) mode (linspace05 n) hA
  have b2d := ensureProjBands_no_markers_abort simOkB (wgSubSimCall2D mode)
    (wgRepo pbf (TriHoles2D_jobname matName radius))
    (TriHoles2D_jobname matName radius) mode pre post ky₀ hpre hfail
  have bslab := ensureProjBands_no_markers_abort simOkB (wgSubSimCallSlab runmode mode)
    (wgRepo pbf (TriHolesSlab3D_jobname matName radius thickness))
    (TriHolesSlab3D_jobname matName radius thickness) mode pre post ky₀ hpre hfail
  have e2d : triHoles2D_Wg_projBands (fun _ => false) simOkB pbf matName radius mode m =
      WgProjResult.aborted
        (projFolder (wgRepo pbf (TriHoles2D_jobname matName radius))
          (TriHoles2D_jobname matName radius) ky₀)
        (pre.map (wgSubSimCall2D mode) ++ [wgSubSimCall2D mode ky₀]) := by
    rw [triHoles2D_Wg_projBands, hsplit]; exact b2d
  have eslab : triHolesSlab3D_Wg_projBands (fun _ => false) simOkB pbf matName radius
      thickness mode runmode (KSteps.count m) =
      WgProjResult.aborted
        (projFolder (wgRepo pbf (TriHolesSlab3D_jobname matName radius thickness))
          (TriHolesSlab3D_jobname matName radius thickness) ky₀)
        (pre.map (wgSubSimCallSlab runmode mode) ++ [wgSubSimCallSlab runmode mode ky₀]) := by
    rw [triHolesSlab3D_Wg_projBands, kStepsPoints, hsplit]; exact bslab
  refine ⟨a2d, aslab, e2d, eslab, ?_, ?_⟩
  · simp [TriHoles2D_Waveguide_model, e2d]
  · simp [TriHolesSlab3D_Waveguide_model, eslab]

/-- Witness for C2 at a fully concrete input: one sampled k-value;
the success scenario has every sub-simulation succeed, the abort
scenario fails at the first k-value 0. -/
theorem claim2_empty_repo_per_k_and_abort_witness :
    (∀ ky ∈ linspace05 1, (fun (_ : ℚ) => true) ky = true) ∧
    linspace05 1 = [] ++ (0 : ℚ) :: [] ∧
    (∀ ky ∈ ([] : List ℚ), (fun (_ : ℚ) => false) ky = true) ∧
    ((fun (_ : ℚ) => false) (0 : ℚ) = false) ∧
    TriHoles2D_Waveguide_model (fun _ => false) (fun _ => false) sampleDefaults
      "SiN" 1 "te" 1 "sim" "repo" "" [] [] = none := by
  have h := claim2_empty_repo_per_k_and_abort (fun _ => true) (fun _ => false)
    sampleDefaults "repo" "SiN" 1 1 "te" "sim" "" 1 1 [] [] 0 [] []
    (fun _ _ => rfl) (by decide) (fun _ h => absurd h (List.not_mem_nil _)) rfl
  exact ⟨fun _ _ => rfl, by decide, fun _ h => absurd h (List.not_mem_nil _), rfl,
    h.2.2.2.2.1⟩

/-- C3 counterexample: in `TriHolesSlab3D_Waveguide` the bulk
sub-simulation is NOT always run in mode `'sim'`: with parent run mode
`'ctl'` (and a missing marker at k-value 0), the recursive call is made
with run mode `''`.  The full orchestration loop at the explicit
k-list `[0]` performs exactly that invocation. -/
theorem claim3_subsim_runmode_counterexample :
    triHolesSlab3D_Wg_projBands (fun _ => false) (fun _ => true) "repo" "SiN" 1 1
      "zeven" "ctl" (KSteps.explicitList [0]) =
      WgProjResult.ok
        ["repo/TriHolesSlab_SiN_r1000_t1000/TriHolesSlab_SiN_r1000_t1000_projk000000"]
        [{ points_list := [(0, 0), (1/2, 1/2)], k_interpolation := 15,
           runmode := "", modes := ["zeven"] }] ∧
    (wgSubSimCallSlab "ctl" "zeven" 0).runmode ≠ "sim" := by
  constructor
  · simp only [triHolesSlab3D_Wg_projBands, kStepsPoints, ensureProjBands, wgCons,
      Bool.false_eq_true, if_false, if_true, wgSubSimCallSlab, projPointA, projPointB,
      rectBZ_K, triBZ_M, projFolder, projkSuffix, rangeFileName, wgRepo, pathJoin,
      TriHolesSlab3D_jobname, one_mul, mul_zero, zero_mul, zero_add]
    norm_num
    decide
  · decide

/-- C3 (amended): for every sampled waveguide k-value whose marker
file is missing, the bulk sub-simulation is run with
`k_interpolation=15` over exactly the two-point k-list
`[2*ky*(0.25,-0.25), 2*ky*(0.25,-0.25)+(0.5,0.5)]` (the
rectangular-supercell K point scaled by `ky`, and the same point
offset to the triangular lattice's M point); `TriHoles2D_Waveguide`
runs it in mode `'sim'` regardless of the parent's run mode, while
`TriHolesSlab3D_Waveguide` runs it in mode `'sim'` only when the
parent's run mode starts with `'s'`, and in mode `''` otherwise. -/
theorem claim3_subsim_call_amended (parent_runmode mode : String) (ky : ℚ) :
    wgSubSimCall2D mode ky =
      { points_list := [(2 * ky * (1/4), 2 * ky * (-(1/4))),
                        (2 * ky * (1/4) + 1/2, 2 * ky * (-(1/4)) + 1/2)],
        k_interpolation := 15,
        runmode := "sim",
        modes := [mode] } ∧
    wgSubSimCallSlab parent_runmode mode ky =
      { points_list := [(2 * ky * (1/4), 2 * ky * (-(1/4))),
                        (2 * ky * (1/4) + 1/2, 2 * ky * (-(1/4)) + 1/2)],
        k_interpolation := 15,
        runmode := if pyStartsWith parent_runmode "s" then "sim" else "",
        modes := [mode] } := by
  have hA : projPointA ky = (2 * ky * (1/4), 2 * ky * (-(1/4))) := by
    simp only [projPointA, rectBZ_K, Prod.mk.injEq]
    constructor <;> ring
  have hB : projPointB ky = (2 * ky * (1/4) + 1/2, 2 * ky * (-(1/4)) + 1/2) := by
    simp only [projPointB, rectBZ_K, triBZ_M, Prod.mk.injEq]
    constructor <;> ring
  exact ⟨by rw [wgSubSimCall2D, hA, hB], by rw [wgSubSimCallSlab, hA, hB]⟩

theorem pyRoundHalfEven_nonneg {q : ℚ} (h : 0 ≤ q) : 0 ≤ pyRoundHalfEven q := by
  have hnum : 0 ≤ q.num := Rat.num_nonneg.mpr h
  have hden : (0 : ℤ) ≤ (q.den : ℤ) := Int.ofNat_nonneg q.den
  have hf : 0 ≤ ratFloor q := Int.fdiv_nonneg hnum hden
  unfold pyRoundHalfEven
  dsimp only
  split
  · exact hf
  · split
    · omega
    · split
      · exact hf
      · omega

/-- C4: job-folder naming is deterministic and fixed-precision.  Two
calls with identical inputs produce identical folder names; the radius
and thickness enter the name as the value times 1000, rounded to an
integer and zero-padded to 3 digits; and two radii whose
thousandfold rounds to the same integer (the same milli-unit) produce
the same folder name, for both `TriHoles2D` and `TriHolesSlab3D`. -/
theorem claim4_jobname_formatting
    (matName : String) (r₁ r₂ r₃ r₄ t : ℚ)
    (hr₁ : 0 ≤ r₁) (ht : 0 ≤ t)
    (hdet : r₃ = r₄)
    (hcol : pyRoundHalfEven (r₁ * 1000) = pyRoundHalfEven (r₂ * 1000)) :
    TriHoles2D_jobname matName r₃ = TriHoles2D_jobname matName r₄ ∧
    TriHolesSlab3D_jobname matName r₃ t = TriHolesSlab3D_jobname matName r₄ t ∧
    TriHoles2D_jobname matName r₁ = TriHoles2D_jobname matName r₂ ∧
    TriHolesSlab3D_jobname matName r₁ t = TriHolesSlab3D_jobname matName r₂ t ∧
    TriHoles2D_jobname matName r₁ =
      "TriHoles2D_" ++ matName ++ "_r" ++
        zeroPad 3 (pyRoundHalfEven (r₁ * 1000)).toNat ∧
    TriHolesSlab3D_jobname matName r₁ t =
      "TriHolesSlab_" ++ matName ++ "_r" ++
        zeroPad 3 (pyRoundHalfEven (r₁ * 1000)).toNat ++ "_t" ++
        zeroPad 3 (pyRoundHalfEven (t * 1000)).toNat := by
  have hfmt : pyFormat0f 3 (r₁ * 1000) = pyFormat0f 3 (r₂ * 1000) := by
    unfold pyFormat0f
    rw [hcol]
  have hpos : ∀ q : ℚ, 0 ≤ q → pyFormat0f 3 (q * 1000) =
      zeroPad 3 (pyRoundHalfEven (q * 1000)).toNat := by
    intro q hq
    have h1000 : (0 : ℚ) ≤ q * 1000 := by positivity
    have hn := pyRoundHalfEven_nonneg h1000
    unfold pyFormat0f
    dsimp only
    rw [if_neg (by omega)]
  refine ⟨by rw [hdet], by rw [hdet], ?_, ?_, ?_, ?_⟩
  · unfold TriHoles2D_jobname
    rw [hfmt]
  · unfold TriHolesSlab3D_jobname
    rw [hfmt]
  · unfold TriHoles2D_jobname
    rw [hpos r₁ hr₁]
  · unfold TriHolesSlab3D_jobname
    rw [hpos r₁ hr₁, hpos t ht]

/-- Witness for C4 at concrete inputs: radii 0.1234 and 0.12341 differ
only beyond the third decimal, both round to 123 milli-units, and both
yield the same folder name. -/
theorem claim4_jobname_formatting_witness :
    (0 : ℚ) ≤ mkRat 1234 10000 ∧ (0 : ℚ) ≤ 1 ∧
    pyRoundHalfEven ((mkRat 1234 10000 : ℚ) * 1000) =
      pyRoundHalfEven ((mkRat 12341 100000 : ℚ) * 1000) ∧
    TriHoles2D_jobname "SiN" (mkRat 1234 10000) =
      TriHoles2D_jobname "SiN" (mkRat 12341 100000) := by
  have e1 : (mkRat 1234 10000 : ℚ) * 1000 = mkRat 617 5 := by
    rw [Rat.mkRat_eq_div, Rat.mkRat_eq_div]
    norm_num
  have e2 : (mkRat 12341 100000 : ℚ) * 1000 = mkRat 12341 100 := by
    rw [Rat.mkRat_eq_div, Rat.mkRat_eq_div]
    norm_num
  have hcol : pyRoundHalfEven ((mkRat 1234 10000 : ℚ) * 1000) =
      pyRoundHalfEven ((mkRat 12341 100000 : ℚ) * 1000) := by
    rw [e1, e2]
    decide
  have h := claim4_jobname_formatting "SiN" (mkRat 1234 10000) (mkRat 12341 100000)
    1 1 1 (by decide) (by decide) rfl hcol
  exact ⟨by decide, by decide, hcol, h.2.2.1⟩

/-- C5: the default `KSpaceTriangular` path used by `TriHoles2D` (and
`TriHolesSlab3D`) when no custom k-space is given decomposes into the
vertices Gamma(0,0,0), M(1/2,0,0), K(1/3,1/3,0), Gamma(0,0,0) with the
`n` evenly spaced interior points of `seg` bridging each adjacent
pair; it has exactly `3*n + 4` points, and its first and last points
are numerically identical (the closed Gamma loop). -/
theorem claim5_triangular_kpath (n : ℕ) :
    (TriHoles2D_kspace none n).points =
      [((0:ℚ), (0:ℚ), (0:ℚ))] ++ seg n (0, 0, 0) (1/2, 0, 0) ++ [((1/2:ℚ), (0:ℚ), (0:ℚ))] ++
        seg n (1/2, 0, 0) (1/3, 1/3, 0) ++ [((1/3:ℚ), (1/3:ℚ), (0:ℚ))] ++
        seg n (1/3, 1/3, 0) (0, 0, 0) ++ [((0:ℚ), (0:ℚ), (0:ℚ))] ∧
    (TriHoles2D_kspace none n).points.length = 3 * n + 4 ∧
    (TriHoles2D_kspace none n).points.head? = some (0, 0, 0) ∧
    (TriHoles2D_kspace none n).points.getLast? = some (0, 0, 0) := by
  have hdec : (TriHoles2D_kspace none n).points =
      [((0:ℚ), (0:ℚ), (0:ℚ))] ++ seg n (0, 0, 0) (1/2, 0, 0) ++ [((1/2:ℚ), (0:ℚ), (0:ℚ))] ++
        seg n (1/2, 0, 0) (1/3, 1/3, 0) ++ [((1/3:ℚ), (1/3:ℚ), (0:ℚ))] ++
        seg n (1/3, 1/3, 0) (0, 0, 0) ++ [((0:ℚ), (0:ℚ), (0:ℚ))] := by
    simp [TriHoles2D_kspace, kspaceTriangularM, KSpaceM.points, kspaceInterpolate,
      kspaceTail]
  refine ⟨hdec, ?_, ?_, ?_⟩
  · rw [hdec]
    simp only [List.length_append, seg_length, List.length_cons, List.length_nil]
    omega
  · rw [hdec]
    rfl
  · rw [hdec, List.getLast?_concat]

/-- C6: an explicit `KSpace` built from a points list of length `m`
with interpolation count `n` yields `(m-1)*n + m` points (natural
subtraction, so length 0 for `m = 0`), and interpolation of an empty
points list is well defined and returns the empty sequence. -/
theorem claim6_explicit_kspace_length (pts : List Vec3) (n : ℕ) :
    (KSpaceM.points { points_list := pts, k_interpolation := n }).length =
      (pts.length - 1) * n + pts.length ∧
    KSpaceM.points { points_list := [], k_interpolation := n } = [] := by
  constructor
  · show (kspaceInterpolate n pts).length = (pts.length - 1) * n + pts.length
    rw [kspaceInterpolate_length]
    omega
  · rfl

/-- C7: any run-mode string other than `''`, `'ctl'`, `'sim'`,
`'postpc'`, `'display'` is rejected by the run-mode state machine
before any filesystem effect is performed — no effect list is produced
at all, in particular no directory clearing — even though the
clear-directory decision was already made by prefix matching
(`startswith('s') or startswith('c')`) when the `Simulation` object was
constructed, before run-mode validation.  This holds for `TriHoles2D`
and for `TriHoles2D_Waveguide` alike. -/
theorem claim7_invalid_runmode_rejected (rm : String)
    (h : rm ∉ validRunmodes) :
    TriHoles2D_runEffects rm = none ∧
    TriHoles2D_Waveguide_runEffects rm = none ∧
    clearDecision rm = (pyStartsWith rm "s" || pyStartsWith rm "c") := by
  simp only [validRunmodes, List.mem_cons, List.not_mem_nil, or_false, not_or] at h
  obtain ⟨h1, h2, h3, h4, h5⟩ := h
  refine ⟨?_, ?_, rfl⟩ <;>
    simp [TriHoles2D_runEffects, TriHoles2D_Waveguide_runEffects, do_runmode_effects,
      h1, h2, h3, h4, h5]

/-- Witness for C7: `'sillymode'` is not a valid run mode; the
prefix-matched clearing decision for it is `true` (it starts with
`'s'`), yet the state machine rejects it with no effects. -/
theorem claim7_invalid_runmode_rejected_witness :
    ("sillymode" ∉ validRunmodes) ∧
    clearDecision "sillymode" = true ∧
    TriHoles2D_runEffects "sillymode" = none := by
  refine ⟨by decide, by decide, ?_⟩
  exact (claim7_invalid_runmode_rejected "sillymode" (by decide)).1

theorem strContains_refl (s : String) : strContains s s :=
  ⟨"", "", by simp⟩

theorem strContains_concatMap {α : Type} (f : α → String) {l : List α} {x : α}
    (hx : x ∈ l) : strContains (strConcatMap f l) (f x) := by
  induction l with
  | nil => cases hx
  | cons a rest ih =>
      rcases List.mem_cons.mp hx with h | h
      · rw [h, strConcatMap]
        exact strContains_here _ _
      · exact strContains_append_left (f a) (ih h)

theorem gatedRuncode_contains (d : DefaultsM) (mode : String)
    (outputfuncs : List String) (bn : List ℤ) (kv : List Vec3) :
    strContains (gatedRuncode d mode outputfuncs bn kv) memberRoutineCode ∧
    strContains (gatedRuncode d mode outputfuncs bn kv) (outputBandsListCode bn) ∧
    ∀ f ∈ outputfuncs,
      strContains (gatedRuncode d mode outputfuncs bn kv) (outputFuncLine f) := by
  rw [gatedRuncode]
  refine ⟨?_, ?_, ?_⟩
  · exact strContains_append_right _ (strContains_append_right _
      (strContains_append_right _ (strContains_here _ _)))
  · exact strContains_append_right _ (strContains_append_right _
      (strContains_append_right _
        (strContains_append_left memberRoutineCode (strContains_refl _))))
  · intro f hf
    have hin : strContains (outputFuncCode outputfuncs) (outputFuncLine f) := by
      rw [outputFuncCode]
      exact strContains_append_right _
        (strContains_append_left _ (strContains_concatMap outputFuncLine hf))
    exact strContains_append_right _ (strContains_append_right _
      (strContains_append_left _ hin))

/-- C8: when both `save_field_patterns_bandnums` and
`save_field_patterns_kvecs` are non-empty, both waveguide builders emit
run code that contains the recursive Scheme list-membership routine
`member?`, the directive defining `output-bands-list` as exactly the
requested band numbers in the given order, and one gated invocation
line per requested output function for the chosen mode. -/
theorem claim8_field_gating_emission (d : DefaultsM) (mode : String)
    (bn : List ℤ) (kv : List Vec3) (hb : bn ≠ []) (hk : kv ≠ []) :
    strContains (TriHoles2D_Waveguide_runcode d mode bn kv) memberRoutineCode ∧
    strContains (TriHoles2D_Waveguide_runcode d mode bn kv) (outputBandsListCode bn) ∧
    (∀ f ∈ wgOutputFuncs2D d mode,
      strContains (TriHoles2D_Waveguide_runcode d mode bn kv) (outputFuncLine f)) ∧
    strContains (TriHolesSlab3D_Waveguide_runcode d mode bn kv) memberRoutineCode ∧
    strContains (TriHolesSlab3D_Waveguide_runcode d mode bn kv) (outputBandsListCode bn) ∧
    (∀ f ∈ wgOutputFuncsSlab d mode,
      strContains (TriHolesSlab3D_Waveguide_runcode d mode bn kv) (outputFuncLine f)) := by
  have hb2 : bn.isEmpty = false := by
    cases bn with
    | nil => exact absurd rfl hb
    | cons a l => rfl
  have hk2 : kv.isEmpty = false := by
    cases kv with
    | nil => exact absurd rfl hk
    | cons a l => rfl
  have e2d : TriHoles2D_Waveguide_runcode d mode bn kv =
      wgPreamble d ++ gatedRuncode d mode (wgOutputFuncs2D d mode) bn kv := by
    rw [TriHoles2D_Waveguide_runcode, hb2, hk2]
    rfl
  have eslab : TriHolesSlab3D_Waveguide_runcode d mode bn kv =
      wgPreamble d ++ gatedRuncode d mode (wgOutputFuncsSlab d mode) bn kv := by
    rw [TriHolesSlab3D_Waveguide_runcode, hb2, hk2]
    rfl
  obtain ⟨g1, g2, g3⟩ := gatedRuncode_contains d mode (wgOutputFuncs2D d mode) bn kv
  obtain ⟨s1, s2, s3⟩ := gatedRuncode_contains d mode (wgOutputFuncsSlab d mode) bn kv
  rw [e2d, eslab]
  exact ⟨strContains_append_left _ g1, strContains_append_left _ g2,
    fun f hf => strContains_append_left _ (g3 f hf),
    strContains_append_left _ s1, strContains_append_left _ s2,
    fun f hf => strContains_append_left _ (s3 f hf)⟩

/-- Witness for C8 at the concrete inputs of the claim: band numbers
2 and 4, two k-points. -/
theorem claim8_field_gating_emission_witness :
    (([2, 4] : List ℤ) ≠ []) ∧ (([(0, 0, 0), (1/2, 0, 0)] : List Vec3) ≠ []) ∧
    strContains
      (TriHoles2D_Waveguide_runcode sampleDefaults "te" [2, 4] [(0, 0, 0), (1/2, 0, 0)])
      (outputBandsListCode [2, 4]) := by
  refine ⟨by decide, by simp, ?_⟩
  exact (claim8_field_gating_emission sampleDefaults "te" [2, 4] [(0, 0, 0), (1/2, 0, 0)]
    (by decide) (by simp)).2.1

/-- C9: `add_substrate` records as substrate index the length of the
primitive list immediately before the call; in `TriHolesSlab3D` (whose
geometry holds a block and a rod before the substrate is added, so the
recorded index is 2) the plot-cropping value passed to post-processing
is the base value 0.8 scaled by (divided by) that recorded substrate
index, i.e. 0.8 / 2. -/
theorem claim9_substrate_index (g : GeometryM) (material : String) (start_at : ℚ)
    (matName sm : String) (radius thickness : ℚ) :
    (g.add_substrate material start_at).substrate_index = g.objects.length ∧
    TriHolesSlab3D_plot_crop_y (TriHolesSlab3D_geom matName radius thickness (some sm)) =
      (8/10) / ((TriHolesSlab3D_geom matName radius thickness (some sm)).substrate_index : ℚ) ∧
    (TriHolesSlab3D_geom matName radius thickness (some sm)).substrate_index = 2 ∧
    TriHolesSlab3D_plot_crop_y (TriHolesSlab3D_geom matName radius thickness (some sm)) =
      (8/10) / 2 := by
  refine ⟨rfl, rfl, rfl, ?_⟩
  show (8/10 : ℚ) / ((2 : ℕ) : ℚ) = (8/10) / 2
  norm_num

/-- C10: both waveguide builders emit the field-pattern-gating block if
and only if both `save_field_patterns_bandnums` and
`save_field_patterns_kvecs` are non-empty; when either list is empty
(`bnE`/`kvE` scenario) the emitted run code is, after the optional
preamble, exactly one plain run directive whose band function receives
an empty points-of-interest list and no output-function name, followed
by the DOS directive `(print-dos 0 1.2 121)` — so supplying band
numbers without k-vectors (or vice versa) silently disables
field-pattern output. -/
theorem claim10_gating_iff_both_nonempty (d : DefaultsM) (mode : String)
    (bnE bnN : List ℤ) (kvE kvN : List Vec3)
    (hE : bnE = [] ∨ kvE = []) (hbN : bnN ≠ []) (hkN : kvN ≠ []) :
    TriHoles2D_Waveguide_runcode d mode bnE kvE =
      wgPreamble d ++ (("(run-" ++ mode ++ " " ++ d.band_func [] none ++ ")\n") ++
        "(print-dos 0 1.2 121)\n\n") ∧
    TriHolesSlab3D_Waveguide_runcode d mode bnE kvE =
      wgPreamble d ++ (("(run-" ++ mode ++ " " ++ d.band_func [] none ++ ")\n") ++
        "(print-dos 0 1.2 121)\n\n") ∧
    TriHoles2D_Waveguide_runcode d mode bnN kvN =
      wgPreamble d ++ gatedRuncode d mode (wgOutputFuncs2D d mode) bnN kvN ∧
    TriHolesSlab3D_Waveguide_runcode d mode bnN kvN =
      wgPreamble d ++ gatedRuncode d mode (wgOutputFuncsSlab d mode) bnN kvN := by
  have hcond : (!bnE.isEmpty && !kvE.isEmpty) = false := by
    rcases hE with h | h <;> rw [h] <;> simp
  have hbN2 : bnN.isEmpty = false := by
    cases bnN with
    | nil => exact absurd rfl hbN
    | cons a l => rfl
  have hkN2 : kvN.isEmpty = false := by
    cases kvN with
    | nil => exact absurd rfl hkN
    | cons a l => rfl
  refine ⟨?_, ?_, ?_, ?_⟩
  · rw [TriHoles2D_Waveguide_runcode, hcond]
    rfl
  · rw [TriHolesSlab3D_Waveguide_runcode, hcond]
    rfl
  · rw [TriHoles2D_Waveguide_runcode, hbN2, hkN2]
    rfl
  · rw [TriHolesSlab3D_Waveguide_runcode, hbN2, hkN2]
    rfl

/-- Witness for C10: band numbers 2 and 4 with no k-vectors (gating
silently disabled), and the same band numbers with two k-vectors
(gating emitted). -/
theorem claim10_gating_iff_both_nonempty_witness :
    (([2, 4] : List ℤ) = [] ∨ ([] : List Vec3) = []) ∧
    (([2, 4] : List ℤ) ≠ []) ∧ (([(0, 0, 0), (1/2, 0, 0)] : List Vec3) ≠ []) ∧
    TriHoles2D_Waveguide_runcode sampleDefaults "te" [2, 4] [] =
      wgPreamble sampleDefaults ++
        (("(run-" ++ "te" ++ " " ++ sampleDefaults.band_func [] none ++ ")\n") ++
          "(print-dos 0 1.2 121)\n\n") := by
  have h := claim10_gating_iff_both_nonempty sampleDefaults "te" [2, 4] [2, 4]
    [] [(0, 0, 0), (1/2, 0, 0)] (Or.inr rfl) (by decide) (by simp)
  exact ⟨Or.inr rfl, by decide, by simp, h.1⟩
